import Mathlib

/-!
Verification development for the ExploreGPT LLM-orchestration layer.

Shallow embedding of the Python sources `models/llm_clients.py`,
`models/cost_tracker.py` and `models/web_search.py`.  Pure computations
(string assembly, cost arithmetic, intent detection, provider ordering)
are translated directly; network calls and wall-clock measurements are
the only parts abstracted into an explicit environment record.
-/

namespace ExploreGPT

/-! ### Character-list string helpers (Python `in`, `str.lower`, `re.search`) -/

/-- Boolean prefix test on character lists. -/
def isPrefixCL : List Char → List Char → Bool
  | [], _ => true
  | _ :: _, [] => false
  | a :: as, b :: bs => a == b && isPrefixCL as bs

/-- Python `needle in haystack` substring test on character lists. -/
def containsCL (needle : List Char) : List Char → Bool
  | [] => isPrefixCL needle []
  | b :: bs => isPrefixCL needle (b :: bs) || containsCL needle bs

/-- A run of characters is acceptable as a `.*` gap: `.` never matches a newline. -/
def noNewline (l : List Char) : Bool := l.all fun c => c != '\n'

/-- Match a regex of the shape `lit₁.*lit₂.*…litₙ` (the only shape used by the
source's search patterns) anchored at the start of `s`; trailing characters
after the last literal are allowed, as with `re.search`. -/
def matchSegsCL : List (List Char) → List Char → Bool
  | [], _ => true
  | [seg], s => isPrefixCL seg s
  | seg :: seg2 :: rest, s =>
      isPrefixCL seg s &&
      ((List.range ((s.drop seg.length).length + 1)).any fun j =>
        noNewline ((s.drop seg.length).take j) &&
        matchSegsCL (seg2 :: rest) ((s.drop seg.length).drop j))

/-- Unanchored `re.search` semantics: the pattern (given as its `.*`-split
literal segments) may match starting at any position. -/
def reSearchL (segs : List String) (cs : List Char) : Bool :=
  (List.range (cs.length + 1)).any fun i =>
    matchSegsCL (segs.map String.data) (cs.drop i)

/-- Python `str.lower()` restricted to the per-character case mapping. -/
def pyLower (s : String) : List Char := s.data.map Char.toLower

/-! ### `SearchIntentDetector` (web_search.py lines 25-80) -/

/-- The `search_patterns` regex list; each entry is the `.*`-split of the
source pattern (e.g. `find.*information` becomes `["find", "information"]`). -/
def search_patterns : List (List String) :=
  [["search for"], ["look up"], ["find", "information"], ["what", "latest"],
   ["current", "news"], ["recent", "updates"], ["today", "news"],
   ["what", "happening"], ["latest", "on"], ["find", "about"],
   ["web search"], ["google"], ["search the web"]]

/-- The `temporal_patterns` list: all are plain literals, so `re.search`
coincides with substring containment. -/
def temporal_patterns : List String :=
  ["today", "yesterday", "this week", "recent", "latest", "current", "now",
   "2024", "2025"]

/-- The question words checked with Python `word in message_lower`. -/
def question_words : List String :=
  ["what", "how", "when", "where", "who", "why"]

/-- `SearchIntentDetector.needs_search`. -/
def needs_search (message : String) : Bool :=
  let m := pyLower message
  search_patterns.any (fun p => reSearchL p m) ||
  (temporal_patterns.any (fun p => containsCL p.data m) &&
   question_words.any (fun w => containsCL w.data m))

/-- `WebSearchManager.should_search` delegates to the intent detector. -/
def should_search (message : String) : Bool := needs_search message

/-! ### `CostTracker` (cost_tracker.py) -/

/-- The `PRICING` table: per-1K-token input/output USD rates. -/
def PRICING (provider model : String) : Option (ℚ × ℚ) :=
  if provider = "openai" then
    if model = "gpt-4" then some (3/100, 6/100)
    else if model = "gpt-3.5-turbo" then some (15/10000, 2/1000)
    else none
  else if provider = "anthropic" then
    if model = "claude-3-sonnet-20240229" then some (3/1000, 15/1000)
    else if model = "claude-3-haiku-20240307" then some (25/100000, 125/100000)
    else none
  else if provider = "google" then
    if model = "gemini-pro" then some (5/10000, 15/10000)
    else none
  else none

/-- Executable floor on `ℚ` (equal to `Int.floor`, see `ratFloor_eq`). -/
def ratFloor (q : ℚ) : ℤ := q.num / (q.den : ℤ)

/-- Executable nearest-integer rounding on `ℚ` (equal to Mathlib's `round`). -/
def ratRound (q : ℚ) : ℤ := ratFloor (q + 1/2)

/-- Python `round(x, 4)`; floats are modelled by rationals, nearest-integer
rounding by `ratRound` (the deviation from float banker's rounding is
confined to exact .00005 ties). -/
def round4 (x : ℚ) : ℚ := ((ratRound (x * 10000) : ℤ) : ℚ) / 10000

/-- `CostTracker.estimate_cost`; `output_tokens` defaults to 100 as in the
source signature. Unknown (provider, model) pairs fall back to $0.01. -/
def estimate_cost (provider model : String) (input_tokens : ℤ)
    (output_tokens : ℤ := 100) : ℚ :=
  match PRICING provider model with
  | none => 1/100
  | some pricing =>
      round4 ((input_tokens : ℚ) / 1000 * pricing.1 +
              (output_tokens : ℚ) / 1000 * pricing.2)

/-- Total character count used by `estimate_message_tokens`: the message
length plus, when a context list is supplied, the lengths of its entries. -/
def total_chars (message : String) (context : Option (List String)) : ℕ :=
  message.length +
    (match context with
     | some ctx => (ctx.map String.length).sum
     | none => 0)

/-- `CostTracker.estimate_message_tokens`: `max(1, total_chars // 4)`. -/
def estimate_message_tokens (message : String)
    (context : Option (List String) := none) : ℕ :=
  max 1 (total_chars message context / 4)

/-! ### Search results and their LLM formatting (web_search.py) -/

/-- `SearchResult`; `to_dict` is the identity on this record. -/
structure SearchResult where
  title : String
  url : String
  snippet : String
  content : Option String := none
deriving DecidableEq, Repr

/-- A single-quote character, written via its code point. -/
def sq : String := (Char.ofNat 39).toString

/-- Python `str.strip()` (over the ASCII whitespace characters). -/
def pyStrip (s : String) : String :=
  String.mk
    (((s.data.dropWhile Char.isWhitespace).reverse.dropWhile Char.isWhitespace).reverse)

/-- One numbered block of `SearchResultProcessor.format_results`:
the f-string template followed by `.strip()`.  The shown content is the
extracted content when requested and truthy (non-`None`, non-empty),
otherwise the snippet. -/
def result_block (idx : ℕ) (r : SearchResult) (include_content : Bool) : String :=
  let content :=
    if include_content && r.content.getD "" ≠ "" then r.content.getD "" else r.snippet
  pyStrip ("\n" ++ toString idx ++ ". **" ++ r.title ++ "**\n   URL: " ++ r.url ++
           "\n   Content: " ++ content ++ "\n")

/-- `SearchResultProcessor.format_results`. -/
def format_results (results : List SearchResult) (include_content : Bool) : String :=
  if results = [] then "No search results found."
  else String.intercalate "\n\n"
    (results.enum.map fun p => result_block (p.1 + 1) p.2 include_content)

/-- `WebSearchManager.format_for_llm`. -/
def format_for_llm (query : String) (results : List SearchResult) : String :=
  if results = [] then "Web search for " ++ sq ++ query ++ sq ++ " returned no results."
  else "Web search results for " ++ sq ++ query ++ sq ++ ":\n\n" ++
       format_results results true ++ "\n\n[Found " ++ toString results.length ++ " results]"

/-- `WebSearchManager.search` (web_search.py lines 252-293) over the outcomes
of the configured providers, tried in order: an attempt either raises (the
`except` arm logs and continues), returns no results (logged, continue), or
returns a non-empty list which is returned after optional content
extraction.  When every attempt fails or is empty the function returns `[]`.
Network behaviour is abstracted: `attempts` lists each provider call's
outcome and `extract` models `SearchResultProcessor.extract_content`. -/
def manager_search (attempts : List (Except String (List SearchResult)))
    (extract : SearchResult → SearchResult) (extract_content : Bool) :
    List SearchResult :=
  match attempts with
  | [] => []
  | .error _ :: rest => manager_search rest extract extract_content
  | .ok [] :: rest => manager_search rest extract extract_content
  | .ok (r :: rs) :: _rest =>
      if extract_content then (r :: rs).map extract else r :: rs

/-! ### Settings and environment (llm_clients.py) -/

/-- One provider's entry in `provider_settings`; missing keys fall back to
`enabled=True`, `priority=999` via `dict.get`. -/
structure ProvCfg where
  enabled : Option Bool := none
  priority : Option ℤ := none

/-- The slice of the settings dictionary read by the orchestrator.  A `none`
models an absent key, resolved by the `dict.get` default at each use site
(`daily_budget`'s absent-key default is `float(inf)`, kept as `none`). -/
structure Settings where
  selected_provider : Option String := none
  context_count : Option ℕ := none
  track_costs : Option Bool := none
  daily_budget : Option ℚ := none
  models : String → Option String := fun _ => none
  provider_settings : String → Option ProvCfg := fun _ => none

/-- Result of `_call_provider` (before `chat_single` tags the provider). -/
structure CallRes where
  response : String
  success : Bool
  latency : ℚ
deriving DecidableEq, Repr

/-- Result dictionary returned by `chat_single`. -/
structure ChatResult where
  response : String
  success : Bool
  latency : ℚ
  provider : String
deriving DecidableEq, Repr

/-- A dictionary yielded by `chat_single_stream`; absent keys are `none`. -/
structure Event where
  type : String
  message : Option String := none
  provider : Option String := none
  model : Option String := none
  text : Option String := none
  latency : Option ℚ := none
  results : Option (List SearchResult) := none
  full_response : Option String := none
deriving DecidableEq, Repr

/-- The environment of one orchestrator call: which adapters initialized
(`self.clients`), the settings snapshot, and the outcomes of the network
interactions (provider calls, web search, the OpenAI stream) together with
the measured wall-clock latencies. -/
structure Env where
  settings : Settings
  available : List String
  callProvider : String → String → CallRes
  searchRes : List SearchResult
  openaiChunks : List String
  openaiErr : Option String
  latencyEnd : ℚ
  latencyErr : ℚ

/-- `estimated_cost > daily_budget / 5` with the absent-key default
`float(inf)`, for which the comparison is always false. -/
def budget_rejects (estimated_cost : ℚ) : Option ℚ → Bool
  | none => false
  | some daily_budget => decide (estimated_cost > daily_budget / 5)

/-- Zero-pad a natural number to four decimal digits. -/
def pad4 (m : ℕ) : String :=
  let s := toString m
  String.mk (List.replicate (4 - s.length) '0') ++ s

/-- Python `f-string` formatting `{x:.4f}` for the nonnegative cost values
that reach it. -/
def fmt4 (q : ℚ) : String :=
  let n := (ratRound (q * 10000)).toNat
  toString (n / 10000) ++ "." ++ pad4 (n % 10000)

/-- Outbound prompt assembly shared by `chat_single` (lines 59-66, which
passes no search text) and `chat_single_stream` (lines 119-126):
`message + search_results_text + context_text`, where the context block is
added only for a non-empty context list and holds the first `context_count`
entries joined by newlines. -/
def assemble_full_message (message search_results_text : String)
    (context : List String) (context_count : ℕ) : String :=
  let context_text :=
    if context = [] then ""
    else "\n\nRelevant context:\n" ++ String.intercalate "\n" (context.take context_count)
  message ++ search_results_text ++ context_text

/-! ### `chat_single` and `chat_single_stream` -/

/-- `settings.get('ui_settings', {}).get('selected_provider', 'openai')`. -/
def selectedOf (s : Settings) : String := s.selected_provider.getD "openai"

/-- The assembled outbound prompt, with the `context_count` read from
`memory_settings` (default 5). -/
def fullMessageOf (s : Settings) (message search_results_text : String)
    (context : List String) : String :=
  assemble_full_message message search_results_text context (s.context_count.getD 5)

/-- The pre-flight cost estimate of the fully assembled message: estimated
tokens, then `estimate_cost` for the selected provider and its configured
model (default `''`), with the default 100 output tokens. -/
def estCostOf (s : Settings) (full_message : String) : ℚ :=
  estimate_cost (selectedOf s) ((s.models (selectedOf s)).getD "")
    (estimate_message_tokens full_message : ℤ)

/-- The budget gate: cost tracking enabled (default off) and the estimate
above a fifth of the daily budget. -/
def gateOf (s : Settings) (full_message : String) : Bool :=
  s.track_costs.getD false && budget_rejects (estCostOf s full_message) s.daily_budget

/-- The `'Request skipped: …'` rejection text. -/
def budgetMsg (estimated_cost : ℚ) : String :=
  "Request skipped: estimated cost $" ++ fmt4 estimated_cost ++ " exceeds budget limits"

/-- `LLMOrchestrator.chat_single`.  The second component records which
providers' adapters were invoked (`_call_provider`), so that "no network
call is made" is expressible.  The cost estimate is only consulted when
`track_costs` holds, mirroring the guarded source block. -/
def chat_single (env : Env) (message : String) (context : List String) :
    ChatResult × List String :=
  let s := env.settings
  let selected_provider := selectedOf s
  if selected_provider ∉ env.available then
    ({ response := "Provider " ++ selected_provider ++ " is not available",
       success := false, latency := 0, provider := selected_provider }, [])
  else
    let full_message := fullMessageOf s message "" context
    if gateOf s full_message then
      ({ response := budgetMsg (estCostOf s full_message),
         success := false, latency := 0, provider := selected_provider }, [])
    else
      let r := env.callProvider selected_provider full_message
      ({ response := r.response, success := r.success, latency := r.latency,
         provider := selected_provider }, [selected_provider])

/-- The web-search step of `chat_single_stream` (lines 103-117): the yielded
events together with `search_results_text`. -/
def search_phase (env : Env) (message : String) : List Event × String :=
  if should_search message then
    let search_results := env.searchRes
    if search_results = [] then
      ([{ type := "searching", message := some "🔍 Searching the web..." },
        { type := "search_complete", message := some "⚠️ No search results found" }], "")
    else
      ([{ type := "searching", message := some "🔍 Searching the web..." },
        { type := "search_complete",
          message := some ("📰 Found " ++ toString search_results.length ++ " results"),
          results := some search_results }],
       "\n\n" ++ format_for_llm message search_results)
  else ([], "")

/-- `LLMOrchestrator._stream_openai`: `start`, one `content` per truthy
chunk, then `end` on success or `error` (with the latency measured at the
failure point) when the stream raises after `openaiChunks`. -/
def stream_openai (env : Env) (_message : String) : List Event :=
  let model := (env.settings.models "openai").getD "gpt-3.5-turbo"
  let contents := env.openaiChunks.filter fun c => c ≠ ""
  { type := "start", provider := some "openai", model := some model } ::
  (contents.map fun c =>
    { type := "content", text := some c, provider := some "openai" }) ++
  (match env.openaiErr with
   | none =>
      [{ type := "end", provider := some "openai", model := some model,
         latency := some env.latencyEnd, full_response := some (String.join contents) }]
   | some e =>
      [{ type := "error", message := some ("Error: " ++ e), provider := some "openai",
         latency := some env.latencyErr }])

/-- `LLMOrchestrator.chat_single_stream` (lines 89-155).  The second
component records the invoked providers, as in `chat_single`. -/
def chat_single_stream (env : Env) (message : String) (context : List String) :
    List Event × List String :=
  let s := env.settings
  let selected_provider := selectedOf s
  if selected_provider ∉ env.available then
    ([{ type := "error",
        message := some ("Provider " ++ selected_provider ++ " is not available"),
        provider := some selected_provider }], [])
  else
    let sp := search_phase env message
    let full_message := fullMessageOf s message sp.2 context
    if gateOf s full_message then
      (sp.1 ++ [{ type := "error",
                  message := some (budgetMsg (estCostOf s full_message)),
                  provider := some selected_provider }], [])
    else if selected_provider = "openai" then
      (sp.1 ++ stream_openai env full_message, ["openai"])
    else
      let r := env.callProvider selected_provider full_message
      (sp.1 ++ [{ type := "start", provider := some selected_provider },
                { type := "content", text := some r.response,
                  provider := some selected_provider },
                { type := "end", provider := some selected_provider }], [selected_provider])

/-! ### `_get_enabled_providers` (llm_clients.py lines 204-219) -/

/-- The enumeration order of the source loop. -/
def provider_enumeration : List String := ["openai", "anthropic", "google"]

/-- `config.get('enabled', True)` after
`provider_settings.get(provider, default)`. -/
def effEnabled (s : Settings) (p : String) : Bool :=
  match s.provider_settings p with
  | none => true
  | some c => c.enabled.getD true

/-- `config.get('priority', 999)` after
`provider_settings.get(provider, default)`. -/
def effPriority (s : Settings) (p : String) : ℤ :=
  match s.provider_settings p with
  | none => 999
  | some c => c.priority.getD 999

/-- Python comparison of `(priority, provider_name)` tuples, as used by
`provider_priorities.sort()`: numeric first, then lexicographic strings. -/
def pairLe (a b : ℤ × String) : Prop :=
  a.1 < b.1 ∨ (a.1 = b.1 ∧ a.2 ≤ b.2)

instance : DecidableRel pairLe := fun a b =>
  inferInstanceAs (Decidable (a.1 < b.1 ∨ (a.1 = b.1 ∧ a.2 ≤ b.2)))

/-- `LLMOrchestrator._get_enabled_providers`: collect the enabled providers
with their priorities, sort the `(priority, name)` pairs, return the names.
Python's sort is modelled by `insertionSort`, which agrees with it here
because the tuple order is total and antisymmetric (names are distinct). -/
def get_enabled_providers (s : Settings) : List String :=
  let provider_priorities := provider_enumeration.filterMap fun p =>
    if effEnabled s p then some (effPriority s p, p) else none
  (List.insertionSort pairLe provider_priorities).map Prod.snd

instance : IsTrans (ℤ × String) pairLe := by
  constructor
  intro a b c hab hbc
  rcases hab with h1 | ⟨h1, h2⟩ <;> rcases hbc with h3 | ⟨h3, h4⟩
  · exact Or.inl (lt_trans h1 h3)
  · exact Or.inl (h3 ▸ h1)
  · exact Or.inl (h1 ▸ h3)
  · exact Or.inr ⟨h1.trans h3, le_trans h2 h4⟩

instance : IsTotal (ℤ × String) pairLe := by
  constructor
  intro a b
  rcases lt_trichotomy a.1 b.1 with h | h | h
  · exact Or.inl (Or.inl h)
  · rcases le_total a.2 b.2 with h2 | h2
    · exact Or.inl (Or.inr ⟨h, h2⟩)
    · exact Or.inr (Or.inr ⟨h.symm, h2⟩)
  · exact Or.inr (Or.inl h)

/-- The fixed tie-break rank induced by Python's tuple comparison: equal
priorities are ordered lexicographically by provider name
(anthropic, google, openai). -/
def nameRank : String → ℕ
  | "anthropic" => 0
  | "google" => 1
  | _ => 2

/-- Settings with google priority 1, openai priority 3, anthropic disabled,
used to instantiate the provider-ordering theorem. -/
def settingsC9 : Settings :=
  { provider_settings := fun p =>
      if p = "openai" then some { priority := some 3 }
      else if p = "anthropic" then some { enabled := some false }
      else some { priority := some 1 } }

/-! ### Event-type regexes for the stream invariant -/

/-- Consume one optional leading token of a regex alternation. -/
def stripOpt (t : String) : List String → List String
  | [] => []
  | x :: xs => if x = t then xs else x :: xs

/-- `Content* (End|Error)`. -/
def tailMatch : List String → Bool
  | ["end"] => true
  | ["error"] => true
  | "content" :: rest => tailMatch rest
  | _ => false

/-- The spec's claimed stream regex
`Typing? Searching? SearchComplete? Start Content* (End|Error)`. -/
def matchesClaimedRegex (l : List String) : Bool :=
  match stripOpt "search_complete" (stripOpt "searching" (stripOpt "typing" l)) with
  | "start" :: rest => tailMatch rest
  | _ => false

/-- The amended stream regex
`Typing? Searching? SearchComplete? (Error | Start Content* (End|Error))`:
a lone terminal `Error` (provider unavailable, budget rejection) is also
allowed. -/
def matchesAmendedRegex (l : List String) : Bool :=
  match stripOpt "search_complete" (stripOpt "searching" (stripOpt "typing" l)) with
  | ["error"] => true
  | "start" :: rest => tailMatch rest
  | _ => false

/-! ### Spec-side definition for the refinement claim C3 -/

/-- Modelled from the spec's words for `prepareMessage(message, context,
searchText)`: `message` first, then `searchText`, then
`"\n\nRelevant context:\n" + join(context, "\n")` when context is
non-empty — with no truncation of the context. -/
def prepareMessage_spec (message search_text : String) (context : List String) : String :=
  message ++ search_text ++
    (if context = [] then ""
     else "\n\nRelevant context:\n" ++ String.intercalate "\n" context)

/-! ### Concrete environments used for witnesses and counterexamples -/

/-- A provider call that always succeeds with a fixed response. -/
def constCall : String → String → CallRes :=
  fun _ _ => { response := "ok", success := true, latency := 3 }

/-- An orchestrator whose adapter set is empty (every client init failed). -/
def envNoProviders : Env :=
  { settings := {}, available := [], callProvider := constCall, searchRes := [],
    openaiChunks := [], openaiErr := none, latencyEnd := 0, latencyErr := 0 }

/-- Cost tracking on, a one-cent daily budget, gpt-4 selected. -/
def envBudget : Env :=
  { settings := { selected_provider := some "openai",
                  models := fun p => if p = "openai" then some "gpt-4" else none,
                  track_costs := some true, daily_budget := some (1/100) },
    available := ["openai"], callProvider := constCall, searchRes := [],
    openaiChunks := [], openaiErr := none, latencyEnd := 0, latencyErr := 0 }

/-- A non-openai provider selected and available: the non-streaming fallback. -/
def envFallback : Env :=
  { settings := { selected_provider := some "anthropic" },
    available := ["anthropic"], callProvider := constCall, searchRes := [],
    openaiChunks := [], openaiErr := none, latencyEnd := 0, latencyErr := 0 }

/-! ### Rounding helper lemmas -/

theorem ratFloor_eq (q : ℚ) : ratFloor q = ⌊q⌋ := Rat.floor_def.symm

theorem ratRound_eq (q : ℚ) : ratRound q = round q := by
  unfold ratRound
  rw [ratFloor_eq, round_eq]

theorem ratRound_mono {x y : ℚ} (h : x ≤ y) : ratRound x ≤ ratRound y := by
  rw [ratRound_eq, ratRound_eq, round_eq, round_eq]
  exact Int.floor_mono (by linarith)

theorem round4_mono {x y : ℚ} (h : x ≤ y) : round4 x ≤ round4 y := by
  unfold round4
  have h1 : ratRound (x * 10000) ≤ ratRound (y * 10000) :=
    ratRound_mono (by nlinarith)
  have h2 : ((ratRound (x * 10000) : ℤ) : ℚ) ≤ ((ratRound (y * 10000) : ℤ) : ℚ) := by
    exact_mod_cast h1
  exact (div_le_div_iff_of_pos_right (by norm_num)).mpr h2

theorem round4_nonneg {x : ℚ} (h : 0 ≤ x) : 0 ≤ round4 x := by
  unfold round4
  have h1 : ratRound 0 ≤ ratRound (x * 10000) := ratRound_mono (by nlinarith)
  have h0 : ratRound (0 : ℚ) = 0 := by rw [ratRound_eq, round_zero]
  rw [h0] at h1
  have h2 : (0 : ℚ) ≤ ((ratRound (x * 10000) : ℤ) : ℚ) := by exact_mod_cast h1
  exact div_nonneg h2 (by norm_num)

theorem PRICING_nonneg {provider model : String} {pr : ℚ × ℚ}
    (h : PRICING provider model = some pr) : 0 ≤ pr.1 ∧ 0 ≤ pr.2 := by
  unfold PRICING at h
  split_ifs at h <;>
    (rw [Option.some_inj] at h; subst h; exact ⟨by norm_num, by norm_num⟩)

/-! ### Claim theorems -/

/-- C6: for every provider, model and nonnegative token counts,
`estimate_cost` is nonnegative and monotonically non-decreasing in the input
token count and in the output token count. -/
theorem estimate_cost_nonneg_monotone (provider model : String)
    (i o i2 o2 : ℤ) (hi : 0 ≤ i) (ho : 0 ≤ o) (hi2 : i ≤ i2) (ho2 : o ≤ o2) :
    0 ≤ estimate_cost provider model i o ∧
    estimate_cost provider model i o ≤ estimate_cost provider model i2 o ∧
    estimate_cost provider model i o ≤ estimate_cost provider model i o2 := by
  unfold estimate_cost
  cases hp : PRICING provider model with
  | none => norm_num
  | some pr =>
    obtain ⟨h1, h2⟩ := PRICING_nonneg hp
    have ci : (i : ℚ) ≤ (i2 : ℚ) := by exact_mod_cast hi2
    have co : (o : ℚ) ≤ (o2 : ℚ) := by exact_mod_cast ho2
    have ci0 : (0 : ℚ) ≤ (i : ℚ) := by exact_mod_cast hi
    have co0 : (0 : ℚ) ≤ (o : ℚ) := by exact_mod_cast ho
    refine ⟨round4_nonneg ?_, round4_mono ?_, round4_mono ?_⟩
    · exact add_nonneg (mul_nonneg (div_nonneg ci0 (by norm_num)) h1)
        (mul_nonneg (div_nonneg co0 (by norm_num)) h2)
    · have : (i : ℚ) / 1000 * pr.1 ≤ (i2 : ℚ) / 1000 * pr.1 :=
        mul_le_mul_of_nonneg_right ((div_le_div_iff_of_pos_right (by norm_num)).mpr ci) h1
      linarith
    · have : (o : ℚ) / 1000 * pr.2 ≤ (o2 : ℚ) / 1000 * pr.2 :=
        mul_le_mul_of_nonneg_right ((div_le_div_iff_of_pos_right (by norm_num)).mpr co) h2
      linarith

theorem estimate_cost_nonneg_monotone_witness :
    0 ≤ estimate_cost "openai" "gpt-4" 1000 500 ∧
    estimate_cost "openai" "gpt-4" 1000 500 ≤ estimate_cost "openai" "gpt-4" 2000 500 ∧
    estimate_cost "openai" "gpt-4" 1000 500 ≤ estimate_cost "openai" "gpt-4" 1000 600 :=
  estimate_cost_nonneg_monotone "openai" "gpt-4" 1000 500 2000 600
    (by norm_num) (by norm_num) (by norm_num) (by norm_num)

/-- C8: the search-intent classifier rejects a plain greeting and accepts a
question about the latest news. -/
theorem should_search_scenarios :
    should_search "hello how are you" = false ∧
    should_search ("what" ++ sq ++ "s the latest AI news today") = true := by
  constructor <;> decide

/-- C10: `estimate_message_tokens` always returns a positive count: the total
character count (message plus context entries) integer-divided by four, but
never less than one. -/
theorem estimate_message_tokens_pos (message : String) (context : Option (List String)) :
    0 < estimate_message_tokens message context ∧
    total_chars message context / 4 ≤ estimate_message_tokens message context ∧
    (1 ≤ total_chars message context / 4 →
      estimate_message_tokens message context = total_chars message context / 4) ∧
    (total_chars message context / 4 = 0 →
      estimate_message_tokens message context = 1) := by
  unfold estimate_message_tokens
  omega

theorem estimate_message_tokens_pos_witness :
    estimate_message_tokens "abc" none = 1 ∧
    estimate_message_tokens "hello world ab" none = total_chars "hello world ab" none / 4 :=
  ⟨(estimate_message_tokens_pos "abc" none).2.2.2 (by decide),
   (estimate_message_tokens_pos "hello world ab" none).2.2.1 (by decide)⟩

/-- C7: when every underlying search provider raises or returns no results,
`WebSearchManager.search` returns the empty list — in the embedding the
exceptional outcomes are consumed by the `except` arm, so no exception
reaches the chat flow. -/
theorem manager_search_total_failure_empty
    (attempts : List (Except String (List SearchResult)))
    (extract : SearchResult → SearchResult) (extract_content : Bool)
    (h : ∀ a ∈ attempts, a = .ok [] ∨ ∃ e, a = .error e) :
    manager_search attempts extract extract_content = [] := by
  induction attempts with
  | nil => rfl
  | cons a rest ih =>
    have hrest : ∀ b ∈ rest, b = .ok [] ∨ ∃ e, b = .error e :=
      fun b hb => h b (List.mem_cons_of_mem _ hb)
    rcases h a (List.mem_cons_self a rest) with ha | ⟨e, ha⟩ <;>
      (subst ha; simpa [manager_search] using ih hrest)

theorem manager_search_total_failure_empty_witness :
    manager_search [Except.error "boom", Except.ok []] id false = [] :=
  manager_search_total_failure_empty _ id false (by
    intro a ha
    simp only [List.mem_cons, List.mem_singleton, List.not_mem_nil, or_false] at ha
    rcases ha with rfl | rfl
    · exact Or.inr ⟨"boom", rfl⟩
    · exact Or.inl rfl)

/-- C3 counterexample: with six context entries and the default
`context_count` of five, the assembled prompt truncates the context, so it
differs from the spec's concatenation of all entries. -/
theorem assemble_truncates_vs_spec :
    assemble_full_message "m" "" ["a", "b", "c", "d", "e", "f"] 5 ≠
      prepareMessage_spec "m" "" ["a", "b", "c", "d", "e", "f"] := by
  decide

/-- C3 (amended): the assembled prompt is the message, then the search text,
then — only for a non-empty context — the labeled block holding the first
`context_count` context entries joined by newlines; the message (and even
the message followed by the search text) is always a prefix, and whenever
the context has at most `context_count` entries the result coincides with
the spec's `prepareMessage`. -/
theorem assemble_full_message_spec (message search_text : String)
    (context : List String) (context_count : ℕ) :
    (∃ rest, assemble_full_message message search_text context context_count =
       message ++ rest) ∧
    (∃ rest, assemble_full_message message search_text context context_count =
       (message ++ search_text) ++ rest) ∧
    (context.length ≤ context_count →
      assemble_full_message message search_text context context_count =
        prepareMessage_spec message search_text context) := by
  have hdef : assemble_full_message message search_text context context_count =
      (message ++ search_text) ++ (if context = [] then ""
        else "\n\nRelevant context:\n" ++
          String.intercalate "\n" (context.take context_count)) := rfl
  refine ⟨⟨search_text ++ (if context = [] then ""
      else "\n\nRelevant context:\n" ++
        String.intercalate "\n" (context.take context_count)), ?_⟩, ⟨_, hdef⟩, ?_⟩
  · rw [hdef, String.append_assoc]
  · intro hlen
    unfold assemble_full_message prepareMessage_spec
    rw [List.take_of_length_le hlen]

theorem assemble_full_message_spec_witness :
    assemble_full_message "msg" "srch" ["c1", "c2"] 5 =
      prepareMessage_spec "msg" "srch" ["c1", "c2"] :=
  (assemble_full_message_spec "msg" "srch" ["c1", "c2"] 5).2.2 (by decide)

/-- C5: if the selected provider's adapter is not initialized, `chat_single`
returns a failed result tagged with that provider with latency 0 and invokes
no provider at all (no fallback), and `chat_single_stream` yields exactly
one `error` event and terminates. -/
theorem provider_unavailable_fails_fast (env : Env) (message : String)
    (context : List String) (h : selectedOf env.settings ∉ env.available) :
    chat_single env message context =
      ({ response := "Provider " ++ selectedOf env.settings ++ " is not available",
         success := false, latency := 0, provider := selectedOf env.settings }, []) ∧
    chat_single_stream env message context =
      ([{ type := "error",
          message := some ("Provider " ++ selectedOf env.settings ++ " is not available"),
          provider := some (selectedOf env.settings) }], []) := by
  constructor
  · simp only [chat_single]
    rw [if_pos h]
  · simp only [chat_single_stream]
    rw [if_pos h]

theorem provider_unavailable_fails_fast_witness :
    chat_single envNoProviders "hi" [] =
      ({ response := "Provider openai is not available",
         success := false, latency := 0, provider := "openai" }, []) ∧
    chat_single_stream envNoProviders "hi" [] =
      ([{ type := "error", message := some "Provider openai is not available",
          provider := some "openai" }], []) :=
  provider_unavailable_fails_fast envNoProviders "hi" [] (by decide)

/-- C2: when cost tracking is enabled and the estimated cost of the fully
assembled message exceeds a fifth of the daily budget, `chat_single` (with
an available selected provider, so that the gate is reached) returns the
budget-rejection failure with latency 0 and invokes no provider adapter:
the gate fires before any call. -/
theorem budget_gate_preflight (env : Env) (message : String) (context : List String)
    (hav : selectedOf env.settings ∈ env.available)
    (htrack : env.settings.track_costs.getD false = true)
    (hover : budget_rejects
        (estCostOf env.settings (fullMessageOf env.settings message "" context))
        env.settings.daily_budget = true) :
    chat_single env message context =
      ({ response := budgetMsg
           (estCostOf env.settings (fullMessageOf env.settings message "" context)),
         success := false, latency := 0, provider := selectedOf env.settings }, []) := by
  simp only [chat_single]
  rw [if_neg (not_not_intro hav), if_pos (by simp [gateOf, htrack, hover])]

unseal Rat.mul Rat.inv Rat.add Rat.sub in
theorem budget_gate_preflight_witness :
    chat_single envBudget "hello" [] =
      ({ response := "Request skipped: estimated cost $0.0060 exceeds budget limits",
         success := false, latency := 0, provider := "openai" }, []) :=
  budget_gate_preflight envBudget "hello" [] (by decide) (by decide) (by decide)

/-- C4 counterexample: in the non-streaming fallback the terminal `end`
event carries only the provider — no model, no latency and no full text —
so the fallback is distinguishable in event shape from the true-streaming
path, whose `end` carries all three. -/
theorem stream_fallback_end_lacks_fields :
    (chat_single_stream envFallback "hi" []).1.map Event.type =
      ["start", "content", "end"] ∧
    ((chat_single_stream envFallback "hi" []).1.getLast?.map Event.model) = some none ∧
    ((chat_single_stream envFallback "hi" []).1.getLast?.map Event.latency) = some none ∧
    ((chat_single_stream envFallback "hi" []).1.getLast?.map Event.full_response) =
      some none := by
  decide

/-- C4 (amended): for an available provider other than openai (no
incremental streaming), `chat_single_stream` appends to the search-phase
events exactly `start`, one `content` event carrying the entire blocking
response, and `end` — the same event-type sequence as the streaming path,
but the fallback `start` and `end` carry only the provider, not the model,
latency or accumulated full text. -/
theorem stream_fallback_shape (env : Env) (message : String) (context : List String)
    (hav : selectedOf env.settings ∈ env.available)
    (hno : selectedOf env.settings ≠ "openai")
    (hgate : gateOf env.settings
        (fullMessageOf env.settings message (search_phase env message).2 context) = false) :
    chat_single_stream env message context =
      ((search_phase env message).1 ++
        [{ type := "start", provider := some (selectedOf env.settings) },
         { type := "content",
           text := some ((env.callProvider (selectedOf env.settings)
             (fullMessageOf env.settings message (search_phase env message).2
               context)).response),
           provider := some (selectedOf env.settings) },
         { type := "end", provider := some (selectedOf env.settings) }],
       [selectedOf env.settings]) := by
  simp only [chat_single_stream]
  rw [if_neg (not_not_intro hav), if_neg (by simp [hgate]), if_neg hno]

theorem stream_fallback_shape_witness :
    chat_single_stream envFallback "hi" [] =
      ([{ type := "start", provider := some "anthropic" },
        { type := "content", text := some "ok", provider := some "anthropic" },
        { type := "end", provider := some "anthropic" }], ["anthropic"]) :=
  stream_fallback_shape envFallback "hi" [] (by decide) (by decide) (by decide)

/-! ### Helper lemmas for the stream event-type invariant -/

theorem search_phase_types (env : Env) (message : String) :
    (search_phase env message).1.map Event.type = [] ∨
    (search_phase env message).1.map Event.type = ["searching", "search_complete"] := by
  unfold search_phase
  by_cases h : should_search message
  · rw [if_pos h]
    by_cases h2 : env.searchRes = []
    · rw [if_pos h2]; right; rfl
    · rw [if_neg h2]; right; rfl
  · rw [if_neg h]; left; rfl

theorem stream_openai_types (env : Env) (m : String) :
    (stream_openai env m).map Event.type =
      "start" :: (List.replicate ((env.openaiChunks.filter (fun c => c ≠ "")).length)
        "content" ++
        [match env.openaiErr with | none => "end" | some _ => "error"]) := by
  unfold stream_openai
  cases env.openaiErr <;>
    simp [List.map_map, Function.comp_def, List.map_const']

theorem tailMatch_replicate (n : ℕ) (x : String) (hx : x = "end" ∨ x = "error") :
    tailMatch (List.replicate n "content" ++ [x]) = true := by
  induction n with
  | zero => rcases hx with rfl | rfl <;> rfl
  | succ k ih => simpa [List.replicate_succ, tailMatch] using ih

theorem matchesAmendedRegex_start (t : List String) :
    matchesAmendedRegex ("start" :: t) = tailMatch t := by
  simp [matchesAmendedRegex, stripOpt]

theorem matchesAmendedRegex_search_start (t : List String) :
    matchesAmendedRegex ("searching" :: "search_complete" :: "start" :: t) =
      tailMatch t := by
  simp [matchesAmendedRegex, stripOpt]

/-- C1 (amended): the event-type sequence of `chat_single_stream` always
matches `Typing? Searching? SearchComplete? (Error | Start Content*
(End|Error))` — that is, the spec's regex extended with a lone terminal
`Error` alternative for the provider-unavailable and budget-rejection
paths, which emit an `Error` with no preceding `Start`.  In particular a
`Content` never precedes `Start`, exactly one `Start` precedes any
`Content`, and at most one terminal event is emitted, after the last
`Content`. -/
theorem stream_event_types_amended_regex (env : Env) (message : String)
    (context : List String) :
    matchesAmendedRegex ((chat_single_stream env message context).1.map Event.type) =
      true := by
  simp only [chat_single_stream]
  by_cases hav : selectedOf env.settings ∈ env.available
  · rw [if_neg (not_not_intro hav)]
    rcases search_phase_types env message with hsp | hsp <;>
      by_cases hgate : gateOf env.settings
        (fullMessageOf env.settings message (search_phase env message).2 context) = true
    · rw [if_pos hgate]
      simp only [List.map_append, hsp, List.map_cons, List.map_nil, List.nil_append]
      decide
    · rw [if_neg hgate]
      by_cases hop : selectedOf env.settings = "openai"
      · rw [if_pos hop]
        simp only [List.map_append, hsp, List.nil_append, stream_openai_types]
        rw [matchesAmendedRegex_start]
        exact tailMatch_replicate _ _ (by cases env.openaiErr <;> simp)
      · rw [if_neg hop]
        simp only [List.map_append, hsp, List.map_cons, List.map_nil, List.nil_append]
        decide
    · rw [if_pos hgate]
      simp only [List.map_append, hsp, List.map_cons, List.map_nil, List.cons_append,
        List.nil_append]
      decide
    · rw [if_neg hgate]
      by_cases hop : selectedOf env.settings = "openai"
      · rw [if_pos hop]
        simp only [List.map_append, hsp, stream_openai_types, List.cons_append,
          List.nil_append]
        rw [matchesAmendedRegex_search_start]
        exact tailMatch_replicate _ _ (by cases env.openaiErr <;> simp)
      · rw [if_neg hop]
        simp only [List.map_append, hsp, List.map_cons, List.map_nil, List.cons_append,
          List.nil_append]
        decide
  · rw [if_pos hav]
    simp only [List.map_cons, List.map_nil]
    decide

/-- C1 counterexample: when the selected provider is unavailable the stream
is a single `Error` event, whose type sequence does not match the spec's
claimed regex (which requires a `Start` before the terminal event). -/
theorem stream_claimed_regex_fails :
    matchesClaimedRegex ((chat_single_stream envNoProviders "hi" []).1.map Event.type) =
      false := by
  decide

/-! ### Provider ordering (C9) -/

theorem nameRank_strict {a b : String} (ha : a ∈ provider_enumeration)
    (hb : b ∈ provider_enumeration) (h : a < b) : nameRank a < nameRank b := by
  simp only [provider_enumeration, List.mem_cons, List.not_mem_nil, or_false] at ha hb
  rcases ha with rfl | rfl | rfl <;> rcases hb with rfl | rfl | rfl <;>
    first
      | decide
      | exact absurd (String.lt_iff_toList_lt.mp h) (by decide)

/-- C9: `_get_enabled_providers` returns exactly the enabled providers,
ordered by ascending priority value, with equal priorities broken by a
fixed order on the provider names (the lexicographic ranks
anthropic < google < openai arising from Python's tuple comparison). -/
theorem enabled_providers_order (s : Settings) :
    (∀ p ∈ provider_enumeration,
        (p ∈ get_enabled_providers s ↔ effEnabled s p = true)) ∧
    (∀ p ∈ get_enabled_providers s, p ∈ provider_enumeration) ∧
    (get_enabled_providers s).Pairwise (fun a b =>
      effPriority s a < effPriority s b ∨
      (effPriority s a = effPriority s b ∧ nameRank a < nameRank b)) := by
  set pairs := provider_enumeration.filterMap
    (fun p => if effEnabled s p then some (effPriority s p, p) else none) with hpairs
  have hunfold : get_enabled_providers s =
      (List.insertionSort pairLe pairs).map Prod.snd := rfl
  have hperm : List.Perm (List.insertionSort pairLe pairs) pairs :=
    List.perm_insertionSort _ _
  have hmem_pairs : ∀ x ∈ pairs,
      x.1 = effPriority s x.2 ∧ x.2 ∈ provider_enumeration ∧ effEnabled s x.2 = true := by
    intro x hx
    rw [hpairs] at hx
    rcases List.mem_filterMap.mp hx with ⟨p, hp, hpe⟩
    by_cases he : effEnabled s p = true
    · rw [if_pos he] at hpe
      simp only [Option.some_inj] at hpe
      subst hpe
      exact ⟨rfl, hp, he⟩
    · rw [if_neg he] at hpe
      exact absurd hpe (by simp)
  have hmemsorted : ∀ x, x ∈ List.insertionSort pairLe pairs ↔ x ∈ pairs :=
    fun x => hperm.mem_iff
  refine ⟨?_, ?_, ?_⟩
  · intro p hp
    constructor
    · intro hmem
      rw [hunfold] at hmem
      rcases List.mem_map.mp hmem with ⟨x, hx, hxp⟩
      have hfacts := hmem_pairs x ((hmemsorted x).mp hx)
      rw [← hxp]
      exact hfacts.2.2
    · intro he
      rw [hunfold]
      refine List.mem_map.mpr ⟨(effPriority s p, p), ?_, rfl⟩
      refine (hmemsorted _).mpr ?_
      rw [hpairs]
      exact List.mem_filterMap.mpr ⟨p, hp, by rw [if_pos he]⟩
  · intro p hp
    rw [hunfold] at hp
    rcases List.mem_map.mp hp with ⟨x, hx, hxp⟩
    have hfacts := hmem_pairs x ((hmemsorted x).mp hx)
    rw [← hxp]
    exact hfacts.2.1
  · have hsorted : List.Pairwise pairLe (List.insertionSort pairLe pairs) :=
      List.sorted_insertionSort pairLe pairs
    have hnodup_names : ((List.insertionSort pairLe pairs).map Prod.snd).Nodup := by
      have hpn : (pairs.map Prod.snd).Nodup := by
        rw [hpairs]
        by_cases h1 : effEnabled s "openai" = true <;>
        by_cases h2 : effEnabled s "anthropic" = true <;>
        by_cases h3 : effEnabled s "google" = true <;>
          simp [provider_enumeration, List.filterMap, h1, h2, h3]
      exact ((hperm.map Prod.snd).nodup_iff).mpr hpn
    rw [hunfold, List.pairwise_iff_getElem]
    intro i j hi hj hij
    have hi' : i < (List.insertionSort pairLe pairs).length := by
      simpa using hi
    have hj' : j < (List.insertionSort pairLe pairs).length := by
      simpa using hj
    have hRij : pairLe ((List.insertionSort pairLe pairs)[i])
        ((List.insertionSort pairLe pairs)[j]) :=
      (List.pairwise_iff_getElem.mp hsorted) i j hi' hj' hij
    have hxi := hmem_pairs _ ((hmemsorted _).mp (List.getElem_mem hi'))
    have hxj := hmem_pairs _ ((hmemsorted _).mp (List.getElem_mem hj'))
    have hne : ((List.insertionSort pairLe pairs)[i]).2 ≠
        ((List.insertionSort pairLe pairs)[j]).2 := by
      have hpw := List.pairwise_iff_getElem.mp hnodup_names i j hi hj hij
      simpa using hpw
    simp only [List.getElem_map]
    rcases hRij with hlt | ⟨heq, hle⟩
    · left
      rw [← hxi.1, ← hxj.1]
      exact hlt
    · right
      refine ⟨?_, ?_⟩
      · rw [← hxi.1, ← hxj.1]
        exact heq
      · exact nameRank_strict hxi.2.1 hxj.2.1 (lt_of_le_of_ne hle hne)

theorem enabled_providers_order_witness :
    ("openai" ∈ get_enabled_providers settingsC9 ↔
      effEnabled settingsC9 "openai" = true) ∧
    (get_enabled_providers settingsC9).Pairwise (fun a b =>
      effPriority settingsC9 a < effPriority settingsC9 b ∨
      (effPriority settingsC9 a = effPriority settingsC9 b ∧ nameRank a < nameRank b)) :=
  ⟨(enabled_providers_order settingsC9).1 "openai" (by decide),
   (enabled_providers_order settingsC9).2.2⟩

end ExploreGPT
